import Mathlib

/-!
Shallow embedding of the signaling server (src/server.js) of the
Hacknix-Meetings repository: room aggregate, room registry, rate limiter,
and the socket event handlers (join-room, offer, answer, ice-candidate,
media-status-change, chat-message, disconnect), together with the
LRU-cache dispose callback and the socket.io delivery semantics needed to
reason about relayed signaling messages.

JavaScript Maps are modelled as association lists with Map semantics
(set replaces in place, delete removes, insertion order preserved);
Date.now() is passed explicitly as a natural number; a thrown exception
is an Except.error; socket.io emits are recorded as a list of
(target, event) pairs in emission order.
-/

/-- MAX_ROOMS from server.js line 74. -/
def MAX_ROOMS : Nat := 200

/-- MAX_USERS_PER_ROOM from server.js line 75. -/
def MAX_USERS_PER_ROOM : Nat := 150

/-- MAX_CHAT_HISTORY from server.js line 76. -/
def MAX_CHAT_HISTORY : Nat := 100

/-- A participant record as stored by OptimizedRoom.addUser (lines 92-99). -/
structure UserRec where
  id : String
  name : String
  cameraOn : Bool
  audioOn : Bool
  screenShareOn : Bool
  joinedAt : Nat
deriving Repr, DecidableEq

/-- The userData argument of addUser. -/
structure UserData where
  name : String
  cameraOn : Bool
  audioOn : Bool
  screenShareOn : Bool
deriving Repr, DecidableEq

/-- A stored chat message: the spread of the incoming message plus the id
assigned from the room sequence counter (lines 159-162). -/
structure ChatMessage where
  name : String
  message : String
  timestamp : Nat
  id : Nat
deriving Repr, DecidableEq

/-- An incoming chat message before the id is assigned (lines 460-464). -/
structure ChatMsgIn where
  name : String
  message : String
  timestamp : Nat
deriving Repr, DecidableEq

/-- Lookup in a JavaScript Map modelled as an association list. -/
def alistGet {β : Type} : List (String × β) → String → Option β
  | [], _ => none
  | (k, v) :: rest, key => if k = key then some v else alistGet rest key

/-- Map.set semantics: replace in place when the key exists, else append. -/
def alistSet {β : Type} : List (String × β) → String → β → List (String × β)
  | [], key, v => [(key, v)]
  | (k, w) :: rest, key, v =>
      if k = key then (key, v) :: rest else (k, w) :: alistSet rest key v

/-- Map.delete semantics: remove the entry with the given key. -/
def alistDelete {β : Type} : List (String × β) → String → List (String × β)
  | [], _ => []
  | (k, w) :: rest, key =>
      if k = key then rest else (k, w) :: alistDelete rest key

/-- Map.has semantics. -/
def alistHas {β : Type} (m : List (String × β)) (key : String) : Bool :=
  (alistGet m key).isSome

/-- JS String.prototype.trim, modelled structurally over the character
list (drop leading and trailing whitespace) so that it evaluates by
kernel reduction; String.trim of core Lean computes the same string but
is defined by well founded recursion. -/
def jsTrim (s : String) : String :=
  String.mk
    (((s.data.dropWhile Char.isWhitespace).reverse.dropWhile
        Char.isWhitespace).reverse)

/-- The users Map of a room: socketId to participant record. -/
abbrev UsersMap := List (String × UserRec)

/-- The OptimizedRoom class (server.js lines 78-174). The fields usersList
and usersListExpiry embed the private memoization fields of the class. -/
structure OptimizedRoom where
  id : String
  users : UsersMap
  chatHistory : List ChatMessage
  createdAt : Nat
  lastActivity : Nat
  usersList : Option (List UserRec)
  usersListExpiry : Nat
  messageCount : Nat
deriving Repr, DecidableEq

/-- The OptimizedRoom constructor (lines 79-88). -/
def OptimizedRoom.init (id : String) (now : Nat) : OptimizedRoom :=
  { id := id, users := [], chatHistory := [], createdAt := now,
    lastActivity := now, usersList := none, usersListExpiry := 0,
    messageCount := 0 }

/-- The private invalidateCache method (lines 148-151). -/
def OptimizedRoom.invalidateCache (r : OptimizedRoom) : OptimizedRoom :=
  { r with usersList := none, usersListExpiry := 0 }

/-- addUser (lines 90-102): throws when the room already holds
MAX_USERS_PER_ROOM participants, before any mutation; otherwise inserts
the record, bumps lastActivity and invalidates the roster cache. -/
def OptimizedRoom.addUser (r : OptimizedRoom) (now : Nat) (socketId : String)
    (userData : UserData) : Except String OptimizedRoom :=
  if r.users.length ≥ MAX_USERS_PER_ROOM then
    Except.error "Room is full"
  else
    Except.ok (OptimizedRoom.invalidateCache
      { r with
        users := alistSet r.users socketId
          { id := socketId, name := userData.name,
            cameraOn := userData.cameraOn, audioOn := userData.audioOn,
            screenShareOn := userData.screenShareOn, joinedAt := now },
        lastActivity := now })

/-- removeUser (lines 104-111): idempotent removal returning whether a
record was removed. -/
def OptimizedRoom.removeUser (r : OptimizedRoom) (now : Nat)
    (socketId : String) : Bool × OptimizedRoom :=
  if alistHas r.users socketId then
    (true, OptimizedRoom.invalidateCache
      { r with users := alistDelete r.users socketId, lastActivity := now })
  else
    (false, r)

/-- The partial status object of updateUserStatus and media-status-change:
absent fields are none (undefined in JavaScript). -/
structure StatusUpdate where
  cameraOn : Option Bool
  audioOn : Option Bool
  screenShareOn : Option Bool
  name : Option String
deriving Repr, DecidableEq

/-- updateUserStatus (lines 113-125): merges only the supplied fields into
the stored record, bumps activity, invalidates the cache; returns null for
an unknown participant. -/
def OptimizedRoom.updateUserStatus (r : OptimizedRoom) (now : Nat)
    (socketId : String) (status : StatusUpdate) :
    Option UserRec × OptimizedRoom :=
  match alistGet r.users socketId with
  | none => (none, r)
  | some user =>
    let user2 : UserRec :=
      { user with
        cameraOn := status.cameraOn.getD user.cameraOn,
        audioOn := status.audioOn.getD user.audioOn,
        screenShareOn := status.screenShareOn.getD user.screenShareOn,
        name := status.name.getD user.name }
    (some user2, OptimizedRoom.invalidateCache
      { r with users := alistSet r.users socketId user2,
               lastActivity := now })

/-- getUsersArray (lines 127-134): memoized roster snapshot, recomputed
when the cache is null or expired; the recomputed list is cached for
5000 ms. Returns the list and the room with its updated cache fields. -/
def OptimizedRoom.getUsersArray (r : OptimizedRoom) (now : Nat) :
    List UserRec × OptimizedRoom :=
  match r.usersList with
  | some l =>
      if now > r.usersListExpiry then
        let l2 := r.users.map (fun kv => kv.2)
        (l2, { r with usersList := some l2, usersListExpiry := now + 5000 })
      else
        (l, r)
  | none =>
      let l2 := r.users.map (fun kv => kv.2)
      (l2, { r with usersList := some l2, usersListExpiry := now + 5000 })

/-- getUsersStatus (lines 136-146). -/
def OptimizedRoom.getUsersStatus (r : OptimizedRoom) :
    List (String × Bool × Bool × Bool) :=
  r.users.map (fun kv => (kv.1, kv.2.cameraOn, kv.2.audioOn, kv.2.screenShareOn))

/-- isEmpty (lines 153-155). -/
def OptimizedRoom.isEmpty (r : OptimizedRoom) : Bool :=
  r.users.length = 0

/-- addMessage (lines 157-169): increments the sequence counter, appends
the message stamped with it, then drops the oldest message once the
history exceeds MAX_CHAT_HISTORY. -/
def OptimizedRoom.addMessage (r : OptimizedRoom) (now : Nat)
    (m : ChatMsgIn) : OptimizedRoom :=
  let mc := r.messageCount + 1
  let hist1 := r.chatHistory ++
    [{ name := m.name, message := m.message, timestamp := m.timestamp, id := mc }]
  let hist2 := if hist1.length > MAX_CHAT_HISTORY then hist1.tail else hist1
  { r with messageCount := mc, chatHistory := hist2, lastActivity := now }

/-- getChatHistory (lines 171-173): slice of the last limit messages. -/
def OptimizedRoom.getChatHistory (r : OptimizedRoom) (limit : Nat) :
    List ChatMessage :=
  if limit = 0 then r.chatHistory
  else r.chatHistory.drop (r.chatHistory.length - limit)

/-- Cache coherence: whenever the memoized roster is present it equals the
current users of the room. Every room produced by the operations above
satisfies this, because each mutation invalidates the memo. -/
def cacheOKb (r : OptimizedRoom) : Bool :=
  match r.usersList with
  | none => true
  | some l => l = r.users.map (fun kv => kv.2)

/-- A rate limit entry (lines 205-212). -/
structure RateLimitEntry where
  count : Nat
  resetTime : Nat
deriving Repr, DecidableEq

/-- The rateLimits store keyed by socketId:action. -/
abbrev RateLimits := List (String × RateLimitEntry)

/-- isRateLimited (lines 200-214): fixed window counter. First use or an
expired window resets count to 1 and allows; a count at the limit denies
without mutation; otherwise the count is incremented and the call allowed.
Returns the decision and the updated store. -/
def isRateLimited (st : RateLimits) (now : Nat) (socketId action : String)
    (limit windowMs : Nat) : Bool × RateLimits :=
  let key := socketId ++ ":" ++ action
  match alistGet st key with
  | none => (false, alistSet st key { count := 1, resetTime := now + windowMs })
  | some rl =>
      if now > rl.resetTime then
        (false, alistSet st key { count := 1, resetTime := now + windowMs })
      else if rl.count ≥ limit then
        (true, st)
      else
        (false, alistSet st key { count := rl.count + 1, resetTime := rl.resetTime })

/-- The target of a socket.io emit. -/
inductive Target where
  | toSender
  | roomExceptSender (room : String)
  | roomAll (room : String)
deriving Repr, DecidableEq

/-- The events emitted by the server handlers, with their payloads. -/
inductive OutEvent where
  | errorMsg (message : String)
  | existingUsers (users : List (String × String × Nat))
      (roomUserStatus : List (String × Bool × Bool × Bool))
  | userStartedScreenShare (userId : String) (name : String)
  | userStoppedScreenShare (userId : String) (name : String)
  | chatHistoryEv (msgs : List ChatMessage)
  | userJoined (userId : String) (name : String)
      (cameraOn audioOn screenShareOn : Bool)
  | offerEv (sdp : String) (fromId : String) (name : String)
      (cameraOn audioOn screenShareOn : Bool)
  | answerEv (sdp : String) (toId : String) (fromId : String)
  | iceCandidateEv (candidate : String) (toId : String) (fromId : String)
  | mediaStatusChangeEv (userId : String)
      (cameraOn audioOn screenShareOn : Bool)
  | chatMessageEv (name : String) (message : String) (timestamp : Nat)
  | userLeft (userId : String)
  | roomDisposed (message : String)
deriving Repr, DecidableEq

/-- A list of emits in emission order. -/
abbrev Emits := List (Target × OutEvent)

/-- The mutable server wide state: the rooms LRU map and the rateLimits
store. LRU recency bookkeeping and eviction are not triggered by the
handlers modelled here; eviction is modelled separately by the dispose
callback. -/
structure ServerState where
  rooms : List (String × OptimizedRoom)
  rateLimits : RateLimits
deriving Repr, DecidableEq

/-- The per connection closure variables currentRoomId and userName
(lines 273-274). -/
structure ConnState where
  currentRoomId : Option String
  userName : Option String
deriving Repr, DecidableEq

/-- rooms.get. -/
def roomsGet (rooms : List (String × OptimizedRoom)) (roomId : String) :
    Option OptimizedRoom :=
  alistGet rooms roomId

/-- rooms.set. -/
def roomsSet (rooms : List (String × OptimizedRoom)) (roomId : String)
    (room : OptimizedRoom) : List (String × OptimizedRoom) :=
  alistSet rooms roomId room

/-- getOrCreateRoom (lines 217-225): never creates when present. -/
def getOrCreateRoom (rooms : List (String × OptimizedRoom)) (roomId : String)
    (now : Nat) : OptimizedRoom :=
  match roomsGet rooms roomId with
  | some r => r
  | none => OptimizedRoom.init roomId now

/-- The join-room payload (line 281); the media flags default to false. -/
structure JoinPayload where
  roomId : String
  name : String
  cameraOn : Bool
  audioOn : Bool
  screenShareOn : Bool
deriving Repr, DecidableEq

/-- The input validation of the join-room handler (line 284). -/
def joinInvalid (p : JoinPayload) : Bool :=
  (jsTrim p.roomId) == "" || (jsTrim p.name) == "" ||
  decide (p.roomId.length > 50) || decide (p.name.length > 30)

/-- The result of a join-room handler invocation: the new server state,
the new connection closure state, the emits, and the socket.io rooms the
socket joined during the call. -/
structure JoinResult where
  server : ServerState
  conn : ConnState
  emits : Emits
  sioJoined : List String
deriving Repr, DecidableEq

/-- The join-room handler (lines 281-360), translated statement by
statement. Note that currentRoomId and userName are assigned, and
socket.join performed, before addUser may throw; the catch block emits
the distinct room-full message when the thrown message is Room is full. -/
def joinRoomHandler (server : ServerState) (conn : ConnState)
    (socketId : String) (now : Nat) (p : JoinPayload) : JoinResult :=
  if joinInvalid p then
    { server := server, conn := conn,
      emits := [(Target.toSender, OutEvent.errorMsg "Invalid room ID or name")],
      sioJoined := [] }
  else
    let rl := isRateLimited server.rateLimits now socketId "join-room" 5 60000
    if rl.1 then
      { server := server, conn := conn,
        emits := [(Target.toSender,
          OutEvent.errorMsg "Too many join attempts. Please wait.")],
        sioJoined := [] }
    else
      let rid := (jsTrim p.roomId)
      let room0 := getOrCreateRoom server.rooms rid now
      let conn1 : ConnState :=
        { currentRoomId := some rid, userName := some (jsTrim p.name) }
      let gua1 := room0.getUsersArray now
      let existingUsers :=
        gua1.1.map (fun u => (u.id, u.name, u.joinedAt))
      let existingStatus := gua1.2.getUsersStatus
      let room1 := gua1.2
      match room1.addUser now socketId
          { name := (jsTrim p.name), cameraOn := p.cameraOn,
            audioOn := p.audioOn, screenShareOn := p.screenShareOn } with
      | Except.error e =>
          { server :=
              { server with
                rooms := roomsSet server.rooms rid room1,
                rateLimits := rl.2 },
            conn := conn1,
            emits := [(Target.toSender, OutEvent.errorMsg
              (if e = "Room is full" then "Room is full (max 150 users)"
               else "Failed to join room. Please try again."))],
            sioJoined := [p.roomId] }
      | Except.ok room2 =>
          let gua2 := room2.getUsersArray now
          let screenSharers := gua2.1.filter (fun u => u.screenShareOn)
          let room3 := gua2.2
          let chatHist := room3.getChatHistory MAX_CHAT_HISTORY
          { server :=
              { server with
                rooms := roomsSet server.rooms rid room3,
                rateLimits := rl.2 },
            conn := conn1,
            emits :=
              [(Target.toSender,
                OutEvent.existingUsers existingUsers existingStatus)]
              ++ screenSharers.map (fun u =>
                  (Target.toSender,
                   OutEvent.userStartedScreenShare u.id u.name))
              ++ (if chatHist.length > 0 then
                    [(Target.toSender, OutEvent.chatHistoryEv chatHist)]
                  else [])
              ++ [(Target.roomExceptSender p.roomId,
                   OutEvent.userJoined socketId (jsTrim p.name)
                     p.cameraOn p.audioOn p.screenShareOn)],
            sioJoined := [p.roomId] }

/-- The offer payload: sdp and the target socket id; an absent or empty
to field is falsy. -/
structure OfferPayload where
  sdp : String
  toId : String
deriving Repr, DecidableEq

/-- The offer handler (lines 363-377): requires only that the sender is a
participant of its current room and that payload.to is truthy, then emits
to the socket.io room named by payload.to. No rate limit, no check that
the target belongs to the sender's room, no error path. -/
def offerHandler (server : ServerState) (conn : ConnState)
    (socketId : String) (p : OfferPayload) : Emits :=
  match (conn.currentRoomId.bind (fun rid => roomsGet server.rooms rid)).bind
      (fun r => alistGet r.users socketId) with
  | some u =>
      if p.toId ≠ "" then
        [(Target.roomExceptSender p.toId,
          OutEvent.offerEv p.sdp socketId u.name u.cameraOn u.audioOn
            u.screenShareOn)]
      else []
  | none => []

/-- The answer payload. -/
structure AnswerPayload where
  sdp : String
  toId : String
deriving Repr, DecidableEq

/-- The answer handler (lines 379-388): drops on missing target or room,
applies the signaling rate limit (50 per 60 s), requires the sender to be
a participant of its current room, then forwards the payload spread with
the sender id to the socket.io room named by payload.to. -/
def answerHandler (server : ServerState) (conn : ConnState)
    (socketId : String) (now : Nat) (p : AnswerPayload) :
    RateLimits × Emits :=
  if p.toId = "" ∨ conn.currentRoomId = none then
    (server.rateLimits, [])
  else
    let rl := isRateLimited server.rateLimits now socketId "signaling" 50 60000
    if rl.1 then (rl.2, [])
    else
      match conn.currentRoomId.bind (fun rid => roomsGet server.rooms rid) with
      | some room =>
          if alistHas room.users socketId then
            (rl.2, [(Target.roomExceptSender p.toId,
                     OutEvent.answerEv p.sdp p.toId socketId)])
          else (rl.2, [])
      | none => (rl.2, [])

/-- The ice-candidate payload. -/
structure IcePayload where
  candidate : String
  toId : String
deriving Repr, DecidableEq

/-- The ice-candidate handler (lines 390-398): same shape as answer with
a 100 per 60 s budget on the shared signaling action. -/
def iceCandidateHandler (server : ServerState) (conn : ConnState)
    (socketId : String) (now : Nat) (p : IcePayload) :
    RateLimits × Emits :=
  if p.toId = "" ∨ conn.currentRoomId = none then
    (server.rateLimits, [])
  else
    let rl := isRateLimited server.rateLimits now socketId "signaling" 100 60000
    if rl.1 then (rl.2, [])
    else
      match conn.currentRoomId.bind (fun rid => roomsGet server.rooms rid) with
      | some room =>
          if alistHas room.users socketId then
            (rl.2, [(Target.roomExceptSender p.toId,
                     OutEvent.iceCandidateEv p.candidate p.toId socketId)])
          else (rl.2, [])
      | none => (rl.2, [])

/-- The media-status-change handler (lines 401-436): merges the partial
status through updateUserStatus, broadcasts the new flags to the room
excluding the sender, and emits a started or stopped screen share event
when the screenShareOn flag transitioned. -/
def mediaStatusChangeHandler (server : ServerState) (conn : ConnState)
    (socketId : String) (now : Nat) (status : StatusUpdate) :
    ServerState × Emits :=
  match conn.currentRoomId with
  | none => (server, [])
  | some rid =>
    match roomsGet server.rooms rid with
    | none => (server, [])
    | some room =>
      let oldUser := alistGet room.users socketId
      let res := room.updateUserStatus now socketId status
      match res.1 with
      | none => (server, [])
      | some u =>
          let base : Emits :=
            [(Target.roomExceptSender rid,
              OutEvent.mediaStatusChangeEv socketId u.cameraOn u.audioOn
                u.screenShareOn)]
          let extra : Emits :=
            match oldUser with
            | some ou =>
                if ou.screenShareOn ≠ u.screenShareOn then
                  if u.screenShareOn then
                    [(Target.roomExceptSender rid,
                      OutEvent.userStartedScreenShare socketId u.name)]
                  else
                    [(Target.roomExceptSender rid,
                      OutEvent.userStoppedScreenShare socketId u.name)]
                else []
            | none => []
          ({ server with rooms := roomsSet server.rooms rid res.2 },
           base ++ extra)

/-- The chat-message payload. -/
structure ChatPayload where
  roomId : String
  message : String
  name : String
deriving Repr, DecidableEq

/-- The chat-message handler (lines 439-477): validation requires the
room keyed by the payload roomId, the sender being a participant of it,
a non empty message and name, and the claimed name, trimmed, to equal the
currently stored participant name. Oversized messages and the chat rate
limit surface distinct errors; an accepted message is appended to the
history and broadcast to the whole room including the sender. -/
def chatMessageHandler (server : ServerState) (conn : ConnState)
    (socketId : String) (now : Nat) (p : ChatPayload) :
    ServerState × Emits :=
  match roomsGet server.rooms p.roomId with
  | none => (server, [])
  | some room =>
    match alistGet room.users socketId with
    | none => (server, [])
    | some user =>
      if (jsTrim p.message) = "" ∨ (jsTrim p.name) = "" ∨ user.name ≠ (jsTrim p.name) then
        (server, [])
      else if p.message.length > 500 then
        (server, [(Target.toSender,
          OutEvent.errorMsg "Message too long (max 500 characters)")])
      else
        let rl := isRateLimited server.rateLimits now socketId "chat" 30 60000
        if rl.1 then
          ({ server with rateLimits := rl.2 },
           [(Target.toSender,
             OutEvent.errorMsg "Sending messages too quickly. Please slow down.")])
        else
          let cm : ChatMsgIn :=
            { name := user.name, message := (jsTrim p.message), timestamp := now }
          let room2 := room.addMessage now cm
          ({ server with
             rooms := roomsSet server.rooms p.roomId room2,
             rateLimits := rl.2 },
           [(Target.roomAll p.roomId,
             OutEvent.chatMessageEv user.name (jsTrim p.message) now)])

/-- The disconnect handler (lines 513-532), restricted to its room state
effects: removal from the current room and the user-left broadcast. -/
def disconnectHandler (server : ServerState) (conn : ConnState)
    (socketId : String) (now : Nat) : ServerState × Emits :=
  match conn.currentRoomId with
  | none => (server, [])
  | some rid =>
    match roomsGet server.rooms rid with
    | none => (server, [])
    | some room =>
      let res := room.removeUser now socketId
      if res.1 then
        ({ server with rooms := roomsSet server.rooms rid res.2 },
         [(Target.roomExceptSender rid, OutEvent.userLeft socketId)])
      else
        (server, [])

/-- A JavaScript value as it can reach the dispose callback: either the
string room key or the room object. -/
inductive JsValue where
  | jstr : String → JsValue
  | jroom : OptimizedRoom → JsValue
deriving Repr, DecidableEq

/-- Reading the users property: defined on a room object, undefined on a
string. -/
def JsValue.usersProp : JsValue → Option UsersMap
  | JsValue.jroom r => some r.users
  | JsValue.jstr _ => none

/-- The room key a JsValue denotes when used as an emit target. -/
def JsValue.asRoomKey : JsValue → String
  | JsValue.jstr s => s
  | JsValue.jroom _ => "object Object"

/-- The dispose callback body exactly as written in the source
(lines 182-190), with its two formal parameters named roomId and room in
that order. The console.log line reads room.users.size before anything
else; when room is not an object carrying users this read throws a
TypeError, so the callback aborts before reaching the emit. -/
def roomsDisposeCallback (roomId room : JsValue) :
    Except String Emits :=
  match room.usersProp with
  | none => Except.error "TypeError: cannot read size of undefined"
  | some users =>
      if users.length > 0 then
        Except.ok [(Target.roomAll roomId.asRoomKey,
          OutEvent.roomDisposed "Room has been disposed due to inactivity")]
      else
        Except.ok []

/-- How the lru-cache library (v7 and later, the versions providing the
LRUCache named export and the ttl option used at lines 177-181) invokes
the dispose callback: the first argument is the evicted value and the
second the string key. -/
def lruDisposeInvoke (value : OptimizedRoom) (key : String) :
    Except String Emits :=
  roomsDisposeCallback (JsValue.jroom value) (JsValue.jstr key)

/-- The members of a socket.io room: every connected socket belongs to
the room named by its own id, plus the rooms it joined explicitly. -/
def sioMembers (connected : List String)
    (memberships : List (String × String)) (room : String) : List String :=
  connected.filter (fun s => s = room ∨ (room, s) ∈ memberships)

/-- Delivery of one emit: socket.emit reaches the sender, socket.to(x)
reaches the members of room x except the sender, io.to(x) reaches all
members of room x. -/
def deliverTo (connected : List String)
    (memberships : List (String × String)) (sender : String) :
    Target → List String
  | Target.toSender => [sender]
  | Target.roomExceptSender room =>
      (sioMembers connected memberships room).filter (fun s => s ≠ sender)
  | Target.roomAll room => sioMembers connected memberships room

/-- The sockets reached by a list of emits, in order with multiplicity. -/
def deliveredSockets (connected : List String)
    (memberships : List (String × String)) (sender : String)
    (es : Emits) : List String :=
  es.flatMap (fun te => deliverTo connected memberships sender te.1)

/-- The user-started-screen-share emits of an emit list. -/
def screenShareEmits (es : Emits) : Emits :=
  es.filter (fun te =>
    match te.2 with
    | OutEvent.userStartedScreenShare _ _ => true
    | _ => false)

/-- The name currently stored for a participant of a room of the server. -/
def storedName (server : ServerState) (rid socketId : String) :
    Option String :=
  (roomsGet server.rooms rid).bind
    (fun r => (alistGet r.users socketId).map (fun u => u.name))

/-- A room containing exactly one participant, used to exercise the
eviction callback of the rooms cache. -/
def c2room : OptimizedRoom :=
  { id := "abc",
    users := [("s1",
      { id := "s1", name := "Alice", cameraOn := false, audioOn := false,
        screenShareOn := false, joinedAt := 0 })],
    chatHistory := [], createdAt := 0, lastActivity := 0,
    usersList := none, usersListExpiry := 0, messageCount := 0 }

/-- Iterated invocation of isRateLimited for the join-room action with
the limits the join-room handler passes (5 per 60000 ms), threading the
store through a list of call times; returns the per call decisions. -/
def rlSeq (st : RateLimits) (sid : String) : List Nat → List Bool × RateLimits
  | [] => ([], st)
  | t :: rest =>
      let r := isRateLimited st t sid "join-room" 5 60000
      let tail := rlSeq r.2 sid rest
      (r.1 :: tail.1, tail.2)

/-- A users map holding MAX_USERS_PER_ROOM distinct participants. -/
def fullUsers : UsersMap :=
  (List.range MAX_USERS_PER_ROOM).map
    (fun i => ("u" ++ toString i,
      { id := "u" ++ toString i, name := "N", cameraOn := false,
        audioOn := false, screenShareOn := false, joinedAt := 0 }))

/-- A room at full capacity. -/
def c4room : OptimizedRoom :=
  { id := "a", users := fullUsers, chatHistory := [], createdAt := 0,
    lastActivity := 0, usersList := none, usersListExpiry := 0,
    messageCount := 0 }

/-- A server whose only room is the full room. -/
def c4server : ServerState :=
  { rooms := [("a", c4room)], rateLimits := [] }

/-- A well formed join request for the full room. -/
def c4payload : JoinPayload :=
  { roomId := "a", name := "Bob", cameraOn := false, audioOn := false,
    screenShareOn := false }

/-- A room whose chat history is exactly at the cap, with sequence
numbers 1 to 100 already assigned. -/
def c5room : OptimizedRoom :=
  { id := "c", users := [],
    chatHistory := (List.range MAX_CHAT_HISTORY).map
      (fun i => { name := "N", message := "M", timestamp := 0, id := i + 1 }),
    createdAt := 0, lastActivity := 0, usersList := none,
    usersListExpiry := 0, messageCount := MAX_CHAT_HISTORY }

/-- Room a holding the single participant s1, for the cross-room relay
scenario. -/
def c1roomA : OptimizedRoom :=
  { id := "a",
    users := [("s1",
      { id := "s1", name := "Alice", cameraOn := true, audioOn := true,
        screenShareOn := false, joinedAt := 0 })],
    chatHistory := [], createdAt := 0, lastActivity := 0,
    usersList := none, usersListExpiry := 0, messageCount := 0 }

/-- Room b holding the single participant s2, for the cross-room relay
scenario. -/
def c1roomB : OptimizedRoom :=
  { id := "b",
    users := [("s2",
      { id := "s2", name := "Bob", cameraOn := false, audioOn := false,
        screenShareOn := false, joinedAt := 0 })],
    chatHistory := [], createdAt := 0, lastActivity := 0,
    usersList := none, usersListExpiry := 0, messageCount := 0 }

/-- A server with two disjoint rooms a and b. -/
def c1server : ServerState :=
  { rooms := [("a", c1roomA), ("b", c1roomB)], rateLimits := [] }

/-- The connection state of s1, a participant of room a. -/
def c1conn : ConnState := { currentRoomId := some "a", userName := some "Alice" }

/-- The emits produced when s1 (in room a) sends an offer addressed to s2
(a participant of room b only). -/
def c1emits : Emits :=
  offerHandler c1server c1conn "s1" { sdp := "sdp1", toId := "s2" }

/-- Both sockets are connected; each socket.io personal room is implied
by connectedness, and each socket joined its meeting room. -/
def c1connected : List String := ["s1", "s2"]

/-- Explicit socket.io room memberships from socket.join calls. -/
def c1memberships : List (String × String) := [("a", "s1"), ("b", "s2")]

/-- The outcome of a join attempt on the full room by the fresh
connection s9. -/
def c3res : JoinResult :=
  joinRoomHandler c4server { currentRoomId := none, userName := none }
    "s9" 1 c4payload

/-- A join payload for room a under the name Al. -/
def cjoinA : JoinPayload :=
  { roomId := "a", name := "Al", cameraOn := false, audioOn := false,
    screenShareOn := false }

/-- A join payload for room b under the name Al. -/
def cjoinB : JoinPayload :=
  { roomId := "b", name := "Al", cameraOn := false, audioOn := false,
    screenShareOn := false }

/-- First step of the re-join scenario: s1 joins room a on a fresh
server. -/
def c6step1 : JoinResult :=
  joinRoomHandler { rooms := [], rateLimits := [] }
    { currentRoomId := none, userName := none } "s1" 0 cjoinA

/-- Second step of the re-join scenario: the same connection s1 sends
join-room for room a again. -/
def c6step2 : JoinResult :=
  joinRoomHandler c6step1.server c6step1.conn "s1" 1 cjoinA

/-- First step of the two-room scenario: s1 joins room a on a fresh
server. -/
def c8step1 : JoinResult :=
  joinRoomHandler { rooms := [], rateLimits := [] }
    { currentRoomId := none, userName := none } "s1" 0 cjoinA

/-- Second step of the two-room scenario: s1 joins room b without having
disconnected from room a. -/
def c8step2 : JoinResult :=
  joinRoomHandler c8step1.server c8step1.conn "s1" 1 cjoinB

/-- A malformed join payload: empty room id. -/
def cjoinBad : JoinPayload :=
  { roomId := "", name := "Al", cameraOn := false, audioOn := false,
    screenShareOn := false }

/-- A room r holding one participant x whose stored name is Old. -/
def c10room : OptimizedRoom :=
  { id := "r",
    users := [("x",
      { id := "x", name := "Old", cameraOn := false, audioOn := false,
        screenShareOn := false, joinedAt := 0 })],
    chatHistory := [], createdAt := 0, lastActivity := 0,
    usersList := none, usersListExpiry := 0, messageCount := 0 }

/-- A server holding only the room r. -/
def c10server : ServerState :=
  { rooms := [("r", c10room)], rateLimits := [] }

/-- The connection state of x inside room r. -/
def c10conn : ConnState := { currentRoomId := some "r", userName := some "Old" }

/-- A media-status-change payload that carries only a name. -/
def c10status : StatusUpdate :=
  { cameraOn := none, audioOn := none, screenShareOn := none,
    name := some "NewName" }

/-! ## Helper lemmas about the association list Map model -/

theorem alistGet_alistSet_self {β : Type} (m : List (String × β)) (k : String)
    (v : β) : alistGet (alistSet m k v) k = some v := by
  induction m with
  | nil => simp [alistGet, alistSet]
  | cons hd tl ih =>
      obtain ⟨a, b⟩ := hd
      by_cases h : a = k
      · simp [alistSet, alistGet, h]
      · simp [alistSet, alistGet, h, ih]

theorem alistGet_alistSet_ne {β : Type} (m : List (String × β)) (k k2 : String)
    (v : β) (h : k2 ≠ k) : alistGet (alistSet m k v) k2 = alistGet m k2 := by
  induction m with
  | nil => simp [alistGet, alistSet, Ne.symm h]
  | cons hd tl ih =>
      obtain ⟨a, b⟩ := hd
      by_cases ha : a = k
      · subst ha
        simp [alistSet, alistGet, Ne.symm h]
      · simp only [alistSet, if_neg ha, alistGet]
        by_cases hb : a = k2 <;> simp [hb, ih]

theorem alistSet_length_le {β : Type} (m : List (String × β)) (k : String)
    (v : β) : (alistSet m k v).length ≤ m.length + 1 := by
  induction m with
  | nil => simp [alistSet]
  | cons hd tl ih =>
      obtain ⟨a, b⟩ := hd
      by_cases h : a = k
      · simp [alistSet, h]
      · simp [alistSet, h]
        omega

theorem mem_map_alistSet {β : Type} (m : List (String × β)) (k : String)
    (v : β) : v ∈ (alistSet m k v).map Prod.snd := by
  induction m with
  | nil => simp [alistSet]
  | cons hd tl ih =>
      obtain ⟨a, b⟩ := hd
      by_cases h : a = k
      · simp [alistSet, h]
      · simp only [alistSet, if_neg h, List.map_cons, List.mem_cons]
        exact Or.inr ih

theorem alistGet_none_forall {β : Type} (m : List (String × β)) (k : String)
    (h : alistGet m k = none) : ∀ kv ∈ m, kv.1 ≠ k := by
  induction m with
  | nil => simp
  | cons hd tl ih =>
      obtain ⟨a, b⟩ := hd
      intro kv hkv
      simp only [alistGet] at h
      by_cases ha : a = k
      · simp [ha] at h
      · rcases List.mem_cons.mp hkv with h1 | h2
        · subst h1; exact ha
        · exact ih (by simpa [ha] using h) kv h2

/-! ## Helper lemmas about the memoized roster -/

theorem getUsersArray_snd_fields (r : OptimizedRoom) (now : Nat) :
    ((r.getUsersArray now).2).users = r.users
    ∧ ((r.getUsersArray now).2).chatHistory = r.chatHistory
    ∧ ((r.getUsersArray now).2).messageCount = r.messageCount
    ∧ ((r.getUsersArray now).2).lastActivity = r.lastActivity
    ∧ ((r.getUsersArray now).2).id = r.id
    ∧ ((r.getUsersArray now).2).createdAt = r.createdAt := by
  unfold OptimizedRoom.getUsersArray
  rcases hu : r.usersList with _ | l
  · simp
  · simp only
    split <;> simp

theorem getUsersArray_fst_of_cacheOK (r : OptimizedRoom) (now : Nat)
    (h : cacheOKb r = true) :
    (r.getUsersArray now).1 = r.users.map (fun kv => kv.2) := by
  unfold OptimizedRoom.getUsersArray
  rcases hu : r.usersList with _ | l
  · simp
  · have hl : l = r.users.map (fun kv => kv.2) := by
      unfold cacheOKb at h
      rw [hu] at h
      exact of_decide_eq_true h
    simp only
    split <;> simp [hl]

theorem getUsersArray_usersList_of_cacheOK (r : OptimizedRoom) (now : Nat)
    (h : cacheOKb r = true) :
    ((r.getUsersArray now).2).usersList =
      some (r.users.map (fun kv => kv.2)) := by
  unfold OptimizedRoom.getUsersArray
  rcases hu : r.usersList with _ | l
  · simp
  · have hl : l = r.users.map (fun kv => kv.2) := by
      unfold cacheOKb at h
      rw [hu] at h
      exact of_decide_eq_true h
    simp only
    split <;> simp [hu, hl]

/-- C4: the participant count of a room never exceeds MAX_USERS_PER_ROOM.
An addUser call on a room that already holds MAX_USERS_PER_ROOM
participants throws Room is full before any mutation, addUser preserves
the capacity bound, and the join-room handler surfaces the distinct
room-full message while storing the room with its users, activity clock,
chat history, sequence counter and roster memo exactly as before the
attempt (the memo still holds the current roster, it is not invalidated). -/
theorem participant_capacity_invariant :
    (∀ (r : OptimizedRoom) (now : Nat) (sid : String) (ud : UserData),
      (r.users.length ≥ MAX_USERS_PER_ROOM →
        r.addUser now sid ud = Except.error "Room is full")
      ∧ (r.users.length ≤ MAX_USERS_PER_ROOM →
          ∀ r2, r.addUser now sid ud = Except.ok r2 →
            r2.users.length ≤ MAX_USERS_PER_ROOM))
    ∧ (∀ (server : ServerState) (conn : ConnState) (sid : String) (now : Nat)
        (p : JoinPayload) (room0 : OptimizedRoom),
        joinInvalid p = false →
        (isRateLimited server.rateLimits now sid "join-room" 5 60000).1 = false →
        getOrCreateRoom server.rooms (jsTrim p.roomId) now = room0 →
        cacheOKb room0 = true →
        room0.users.length = MAX_USERS_PER_ROOM →
        (joinRoomHandler server conn sid now p).emits =
          [(Target.toSender, OutEvent.errorMsg "Room is full (max 150 users)")]
        ∧ roomsGet (joinRoomHandler server conn sid now p).server.rooms
            (jsTrim p.roomId) = some ((room0.getUsersArray now).2)
        ∧ ((room0.getUsersArray now).2).users = room0.users
        ∧ ((room0.getUsersArray now).2).lastActivity = room0.lastActivity
        ∧ ((room0.getUsersArray now).2).chatHistory = room0.chatHistory
        ∧ ((room0.getUsersArray now).2).messageCount = room0.messageCount
        ∧ ((room0.getUsersArray now).2).usersList =
            some (room0.users.map (fun kv => kv.2))) := by
  constructor
  · intro r now sid ud
    constructor
    · intro hfull
      unfold OptimizedRoom.addUser
      rw [if_pos hfull]
    · intro hle r2 hok
      unfold OptimizedRoom.addUser at hok
      by_cases hfull : r.users.length ≥ MAX_USERS_PER_ROOM
      · rw [if_pos hfull] at hok
        cases hok
      · rw [if_neg hfull] at hok
        cases hok
        have := alistSet_length_le r.users sid
          { id := sid, name := ud.name, cameraOn := ud.cameraOn,
            audioOn := ud.audioOn, screenShareOn := ud.screenShareOn,
            joinedAt := now }
        simp only [OptimizedRoom.invalidateCache]
        omega
  · intro server conn sid now p room0 hv hrl hg hcache hfull
    have hgu := getUsersArray_snd_fields room0 now
    have haddErr : ((room0.getUsersArray now).2).addUser now sid
        { name := (jsTrim p.name), cameraOn := p.cameraOn,
          audioOn := p.audioOn, screenShareOn := p.screenShareOn } =
        Except.error "Room is full" := by
      unfold OptimizedRoom.addUser
      rw [if_pos (by rw [hgu.1, hfull])]
    have hmain : joinRoomHandler server conn sid now p =
        { server :=
            { server with
              rooms := roomsSet server.rooms (jsTrim p.roomId)
                ((room0.getUsersArray now).2),
              rateLimits :=
                (isRateLimited server.rateLimits now sid "join-room" 5 60000).2 },
          conn := { currentRoomId := some (jsTrim p.roomId),
                    userName := some (jsTrim p.name) },
          emits := [(Target.toSender,
            OutEvent.errorMsg "Room is full (max 150 users)")],
          sioJoined := [p.roomId] } := by
      unfold joinRoomHandler
      rw [if_neg (by simp [hv]), if_neg (by simp [hrl])]
      simp [hg, haddErr]
    refine ⟨by rw [hmain], ?_, hgu.1, hgu.2.2.2.1, hgu.2.1, hgu.2.2.1,
      getUsersArray_usersList_of_cacheOK room0 now hcache⟩
    rw [hmain]
    simp only [roomsGet, roomsSet]
    exact alistGet_alistSet_self server.rooms (jsTrim p.roomId) _

/-- C5: the chat history never exceeds MAX_CHAT_HISTORY entries; appending
at the cap removes exactly the oldest message and keeps the relative
order of the rest, the appended message carries the next value of the
sequence counter, and the counter is incremented. -/
theorem chat_history_fifo (r : OptimizedRoom) (now : Nat) (m : ChatMsgIn)
    (hlen : r.chatHistory.length ≤ MAX_CHAT_HISTORY) :
    ((r.addMessage now m).messageCount = r.messageCount + 1)
    ∧ ((r.addMessage now m).chatHistory.length ≤ MAX_CHAT_HISTORY)
    ∧ (r.chatHistory.length = MAX_CHAT_HISTORY →
        (r.addMessage now m).chatHistory =
          r.chatHistory.tail ++
            [{ name := m.name, message := m.message,
               timestamp := m.timestamp, id := r.messageCount + 1 }])
    ∧ (r.chatHistory.length < MAX_CHAT_HISTORY →
        (r.addMessage now m).chatHistory =
          r.chatHistory ++
            [{ name := m.name, message := m.message,
               timestamp := m.timestamp, id := r.messageCount + 1 }]) := by
  refine ⟨by simp [OptimizedRoom.addMessage], ?_, ?_, ?_⟩
  · unfold OptimizedRoom.addMessage
    by_cases hgt :
        (r.chatHistory ++
          [{ name := m.name, message := m.message, timestamp := m.timestamp,
             id := r.messageCount + 1 : ChatMessage }]).length > MAX_CHAT_HISTORY
    · simp only [if_pos hgt]
      simp only [List.length_tail, List.length_append, List.length_cons,
        List.length_nil] at hgt ⊢
      omega
    · simp only [if_neg hgt]
      simp only [List.length_append, List.length_cons, List.length_nil] at hgt ⊢
      omega
  · intro h100
    unfold OptimizedRoom.addMessage
    have hgt : (r.chatHistory ++
        [{ name := m.name, message := m.message, timestamp := m.timestamp,
           id := r.messageCount + 1 : ChatMessage }]).length > MAX_CHAT_HISTORY := by
      simp [h100]
    simp only [if_pos hgt]
    cases hch : r.chatHistory with
    | nil => rw [hch] at h100; simp [MAX_CHAT_HISTORY] at h100
    | cons a t => simp
  · intro hlt
    unfold OptimizedRoom.addMessage
    have hng : ¬ (r.chatHistory ++
        [{ name := m.name, message := m.message, timestamp := m.timestamp,
           id := r.messageCount + 1 : ChatMessage }]).length > MAX_CHAT_HISTORY := by
      simp only [List.length_append, List.length_cons, List.length_nil]
      omega
    simp only [if_neg hng]

/-- C2: evicting a non-empty room never delivers a room-disposed notice.
The dispose callback is declared with parameters (roomId, room) while
lru-cache v7+ invokes dispose with (value, key); the callback therefore
reads the users property of the string key, which throws a TypeError on
its first line, so even for a room with one participant the invocation
aborts with an exception and emits nothing. Interpreting the same
callback body with the arguments the author assumed does emit the notice,
which shows the emission was intended. -/
theorem room_disposed_notice_never_sent :
    c2room.users.length > 0
    ∧ lruDisposeInvoke c2room "abc" =
        Except.error "TypeError: cannot read size of undefined"
    ∧ roomsDisposeCallback (JsValue.jstr "abc") (JsValue.jroom c2room) =
        Except.ok [(Target.roomAll "abc",
          OutEvent.roomDisposed "Room has been disposed due to inactivity")] := by
  refine ⟨by decide, rfl, rfl⟩

set_option maxRecDepth 100000 in
/-- Witness for the C4 theorem at a concrete full room: both hypothesis
sets are discharged and both conclusions are obtained. -/
theorem participant_capacity_invariant_witness :
    (c4room.users.length ≥ MAX_USERS_PER_ROOM
      ∧ c4room.addUser 1 "s9"
          { name := "Bob", cameraOn := false, audioOn := false,
            screenShareOn := false } = Except.error "Room is full")
    ∧ (joinInvalid c4payload = false
      ∧ (joinRoomHandler c4server { currentRoomId := none, userName := none }
          "s9" 1 c4payload).emits =
        [(Target.toSender, OutEvent.errorMsg "Room is full (max 150 users)")]) := by
  refine ⟨⟨by decide, ?_⟩, by decide, ?_⟩
  · exact (participant_capacity_invariant.1 c4room 1 "s9" _).1 (by decide)
  · exact (participant_capacity_invariant.2 c4server
      { currentRoomId := none, userName := none } "s9" 1 c4payload c4room
      (by decide) (by decide) (by decide) (by decide) (by decide)).1

/-- Witness for the C5 theorem at a room whose history is exactly at the
cap: appending drops the oldest entry and appends the new one with the
next sequence number. -/
theorem chat_history_fifo_witness :
    c5room.chatHistory.length ≤ MAX_CHAT_HISTORY
    ∧ ((c5room.addMessage 7
          { name := "N", message := "hello", timestamp := 7 }).chatHistory =
        c5room.chatHistory.tail ++
          [{ name := "N", message := "hello", timestamp := 7,
             id := c5room.messageCount + 1 }]) := by
  exact ⟨by decide,
    (chat_history_fifo c5room 7
      { name := "N", message := "hello", timestamp := 7 }
      (by decide)).2.2.1 (by decide)⟩

/-! ## Rate limiter step lemmas -/

theorem isRateLimited_fresh (st : RateLimits) (now : Nat) (sid action : String)
    (limit windowMs : Nat) (h : alistGet st (sid ++ ":" ++ action) = none) :
    isRateLimited st now sid action limit windowMs =
      (false, alistSet st (sid ++ ":" ++ action)
        { count := 1, resetTime := now + windowMs }) := by
  simp only [isRateLimited, h]

theorem isRateLimited_count (st : RateLimits) (now : Nat) (sid action : String)
    (limit windowMs c rt : Nat)
    (h : alistGet st (sid ++ ":" ++ action) =
      some { count := c, resetTime := rt })
    (hnow : ¬ now > rt) (hc : c < limit) :
    isRateLimited st now sid action limit windowMs =
      (false, alistSet st (sid ++ ":" ++ action)
        { count := c + 1, resetTime := rt }) := by
  simp only [isRateLimited, h]
  rw [if_neg hnow, if_neg (by omega)]

theorem isRateLimited_deny (st : RateLimits) (now : Nat) (sid action : String)
    (limit windowMs c rt : Nat)
    (h : alistGet st (sid ++ ":" ++ action) =
      some { count := c, resetTime := rt })
    (hnow : ¬ now > rt) (hc : limit ≤ c) :
    isRateLimited st now sid action limit windowMs = (true, st) := by
  simp only [isRateLimited, h]
  rw [if_neg hnow, if_pos (by omega)]

theorem isRateLimited_expired (st : RateLimits) (now : Nat) (sid action : String)
    (limit windowMs c rt : Nat)
    (h : alistGet st (sid ++ ":" ++ action) =
      some { count := c, resetTime := rt })
    (hnow : now > rt) :
    isRateLimited st now sid action limit windowMs =
      (false, alistSet st (sid ++ ":" ++ action)
        { count := 1, resetTime := now + windowMs }) := by
  simp only [isRateLimited, h]
  rw [if_pos hnow]

/-- C7: for one connection, in any prior store holding no entry for its
join-room key, the first five join attempts inside one 60 second window
are allowed, the sixth inside the window is denied, and the first attempt
after the window has expired is allowed again (count reset to 1). -/
theorem join_rate_limit_window (st : RateLimits) (sid : String)
    (t1 t2 t3 t4 t5 t6 t7 : Nat)
    (h0 : alistGet st (sid ++ ":" ++ "join-room") = none)
    (h2 : t2 ≤ t1 + 60000) (h3 : t3 ≤ t1 + 60000) (h4 : t4 ≤ t1 + 60000)
    (h5 : t5 ≤ t1 + 60000) (h6 : t6 ≤ t1 + 60000)
    (h7 : t1 + 60000 < t7) :
    (rlSeq st sid [t1, t2, t3, t4, t5, t6, t7]).1 =
      [false, false, false, false, false, true, false] := by
  have e1 := isRateLimited_fresh st t1 sid "join-room" 5 60000 h0
  have g1 : alistGet (alistSet st (sid ++ ":" ++ "join-room")
      { count := 1, resetTime := t1 + 60000 }) (sid ++ ":" ++ "join-room") =
      some { count := 1, resetTime := t1 + 60000 } :=
    alistGet_alistSet_self st _ _
  have e2 := isRateLimited_count _ t2 sid "join-room" 5 60000 1 (t1 + 60000)
    g1 (by omega) (by omega)
  have g2 : alistGet (alistSet (alistSet st (sid ++ ":" ++ "join-room")
      { count := 1, resetTime := t1 + 60000 }) (sid ++ ":" ++ "join-room")
      { count := 2, resetTime := t1 + 60000 }) (sid ++ ":" ++ "join-room") =
      some { count := 2, resetTime := t1 + 60000 } :=
    alistGet_alistSet_self _ _ _
  have e3 := isRateLimited_count _ t3 sid "join-room" 5 60000 2 (t1 + 60000)
    g2 (by omega) (by omega)
  have g3 : alistGet (alistSet (alistSet (alistSet st
      (sid ++ ":" ++ "join-room") { count := 1, resetTime := t1 + 60000 })
      (sid ++ ":" ++ "join-room") { count := 2, resetTime := t1 + 60000 })
      (sid ++ ":" ++ "join-room") { count := 3, resetTime := t1 + 60000 })
      (sid ++ ":" ++ "join-room") =
      some { count := 3, resetTime := t1 + 60000 } :=
    alistGet_alistSet_self _ _ _
  have e4 := isRateLimited_count _ t4 sid "join-room" 5 60000 3 (t1 + 60000)
    g3 (by omega) (by omega)
  have g4 : alistGet (alistSet (alistSet (alistSet (alistSet st
      (sid ++ ":" ++ "join-room") { count := 1, resetTime := t1 + 60000 })
      (sid ++ ":" ++ "join-room") { count := 2, resetTime := t1 + 60000 })
      (sid ++ ":" ++ "join-room") { count := 3, resetTime := t1 + 60000 })
      (sid ++ ":" ++ "join-room") { count := 4, resetTime := t1 + 60000 })
      (sid ++ ":" ++ "join-room") =
      some { count := 4, resetTime := t1 + 60000 } :=
    alistGet_alistSet_self _ _ _
  have e5 := isRateLimited_count _ t5 sid "join-room" 5 60000 4 (t1 + 60000)
    g4 (by omega) (by omega)
  have g5 : alistGet (alistSet (alistSet (alistSet (alistSet (alistSet st
      (sid ++ ":" ++ "join-room") { count := 1, resetTime := t1 + 60000 })
      (sid ++ ":" ++ "join-room") { count := 2, resetTime := t1 + 60000 })
      (sid ++ ":" ++ "join-room") { count := 3, resetTime := t1 + 60000 })
      (sid ++ ":" ++ "join-room") { count := 4, resetTime := t1 + 60000 })
      (sid ++ ":" ++ "join-room") { count := 5, resetTime := t1 + 60000 })
      (sid ++ ":" ++ "join-room") =
      some { count := 5, resetTime := t1 + 60000 } :=
    alistGet_alistSet_self _ _ _
  have e6 := isRateLimited_deny _ t6 sid "join-room" 5 60000 5 (t1 + 60000)
    g5 (by omega) (by omega)
  have e7 := isRateLimited_expired _ t7 sid "join-room" 5 60000 5 (t1 + 60000)
    g5 (by omega)
  simp only [rlSeq, e1, e2, e3, e4, e5, e6, e7]

/-- Witness for the C7 theorem at concrete times 0 to 5 and 60001 in an
empty store. -/
theorem join_rate_limit_window_witness :
    alistGet ([] : RateLimits) ("s" ++ ":" ++ "join-room") = none
    ∧ (rlSeq [] "s" [0, 1, 2, 3, 4, 5, 60001]).1 =
        [false, false, false, false, false, true, false] :=
  ⟨rfl, join_rate_limit_window [] "s" 0 1 2 3 4 5 60001 rfl
    (by omega) (by omega) (by omega) (by omega) (by omega) (by omega)⟩


/-- getUsersArray on a room whose memo is invalidated always recomputes
the roster from the current users. -/
theorem getUsersArray_none (r : OptimizedRoom) (now : Nat)
    (h : r.usersList = none) :
    r.getUsersArray now =
      (r.users.map (fun kv => kv.2),
       { r with usersList := some (r.users.map (fun kv => kv.2)),
                usersListExpiry := now + 5000 }) := by
  unfold OptimizedRoom.getUsersArray
  rw [h]

/-- Characterization of the join-room handler on the success path: with
valid input, no rate limit, a coherent roster memo and free capacity, the
emits are the existing-users snapshot taken before the insertion, one
user-started-screen-share per sharing participant computed after the
insertion, the chat history when non empty, the user-joined broadcast,
and the connection is bound to the trimmed room id and name. -/
theorem joinRoomHandler_success (server : ServerState) (conn : ConnState)
    (sid : String) (now : Nat) (p : JoinPayload) (room0 : OptimizedRoom)
    (hv : joinInvalid p = false)
    (hrl : (isRateLimited server.rateLimits now sid "join-room" 5 60000).1 = false)
    (hg : getOrCreateRoom server.rooms (jsTrim p.roomId) now = room0)
    (hcache : cacheOKb room0 = true)
    (hcap : room0.users.length < MAX_USERS_PER_ROOM) :
    (joinRoomHandler server conn sid now p).emits =
      [(Target.toSender, OutEvent.existingUsers
          (room0.users.map (fun kv => (kv.2.id, kv.2.name, kv.2.joinedAt)))
          (room0.getUsersStatus))]
      ++ (((alistSet room0.users sid
            { id := sid, name := jsTrim p.name, cameraOn := p.cameraOn,
              audioOn := p.audioOn, screenShareOn := p.screenShareOn,
              joinedAt := now }).map (fun kv => kv.2)).filter
            (fun u => u.screenShareOn)).map
          (fun u => (Target.toSender,
            OutEvent.userStartedScreenShare u.id u.name))
      ++ (if (room0.getChatHistory MAX_CHAT_HISTORY).length > 0 then
            [(Target.toSender,
              OutEvent.chatHistoryEv (room0.getChatHistory MAX_CHAT_HISTORY))]
          else [])
      ++ [(Target.roomExceptSender p.roomId,
           OutEvent.userJoined sid (jsTrim p.name) p.cameraOn p.audioOn
             p.screenShareOn)]
    ∧ (joinRoomHandler server conn sid now p).conn =
        { currentRoomId := some (jsTrim p.roomId),
          userName := some (jsTrim p.name) } := by
  have hfields := getUsersArray_snd_fields room0 now
  have hfst := getUsersArray_fst_of_cacheOK room0 now hcache
  have haddOk : (room0.getUsersArray now).2.addUser now sid
      { name := jsTrim p.name, cameraOn := p.cameraOn,
        audioOn := p.audioOn, screenShareOn := p.screenShareOn } =
      Except.ok (OptimizedRoom.invalidateCache
        { (room0.getUsersArray now).2 with
          users := alistSet (room0.getUsersArray now).2.users sid
            { id := sid, name := jsTrim p.name, cameraOn := p.cameraOn,
              audioOn := p.audioOn, screenShareOn := p.screenShareOn,
              joinedAt := now },
          lastActivity := now }) := by
    unfold OptimizedRoom.addUser
    rw [if_neg (by rw [hfields.1]; omega)]
  have hgua2 := getUsersArray_none (OptimizedRoom.invalidateCache
      { (room0.getUsersArray now).2 with
        users := alistSet (room0.getUsersArray now).2.users sid
          { id := sid, name := jsTrim p.name, cameraOn := p.cameraOn,
            audioOn := p.audioOn, screenShareOn := p.screenShareOn,
            joinedAt := now },
        lastActivity := now }) now rfl
  constructor
  · unfold joinRoomHandler
    rw [if_neg (by simp [hv]), if_neg (by simp [hrl])]
    simp only [hg, haddOk, hgua2]
    simp only [OptimizedRoom.invalidateCache, OptimizedRoom.getChatHistory,
      OptimizedRoom.getUsersStatus, hfields.1, hfields.2.1, hfst,
      List.map_map]
    rfl
  · unfold joinRoomHandler
    rw [if_neg (by simp [hv]), if_neg (by simp [hrl])]
    simp only [hg, haddOk]

/-- C6 (amended): on every successful join the existing-users snapshot
sent to the joiner is exactly the participant set of the room immediately
before the joiner's insertion, and it excludes the joiner whenever the
joiner was not already a participant. A re-join of a current participant
is the exception forced by the counterexample: the pre-insertion set then
contains the joiner's previous record. -/
theorem existing_users_snapshot (server : ServerState) (conn : ConnState)
    (sid : String) (now : Nat) (p : JoinPayload) (room0 : OptimizedRoom)
    (hv : joinInvalid p = false)
    (hrl : (isRateLimited server.rateLimits now sid "join-room" 5 60000).1 = false)
    (hg : getOrCreateRoom server.rooms (jsTrim p.roomId) now = room0)
    (hcache : cacheOKb room0 = true)
    (hcap : room0.users.length < MAX_USERS_PER_ROOM)
    (hids : ∀ kv ∈ room0.users, kv.2.id = kv.1) :
    (joinRoomHandler server conn sid now p).emits.head? =
      some (Target.toSender, OutEvent.existingUsers
        (room0.users.map (fun kv => (kv.2.id, kv.2.name, kv.2.joinedAt)))
        room0.getUsersStatus)
    ∧ (alistGet room0.users sid = none →
        ∀ e ∈ room0.users.map (fun kv => (kv.2.id, kv.2.name, kv.2.joinedAt)),
          e.1 ≠ sid) := by
  have h := joinRoomHandler_success server conn sid now p room0 hv hrl hg
    hcache hcap
  constructor
  · rw [h.1]
    rfl
  · intro hnone e he
    obtain ⟨kv, hkv, hephi⟩ := List.mem_map.mp he
    have hne := alistGet_none_forall room0.users sid hnone kv hkv
    rw [← hephi]
    simpa [hids kv hkv] using hne

/-- Witness for the C6 theorem: a joiner y entering a room that holds
only the participant x receives exactly that one-element snapshot, which
does not contain y. -/
theorem existing_users_snapshot_witness :
    cacheOKb c1roomA = true
    ∧ (joinRoomHandler c1server { currentRoomId := none, userName := none }
        "s9" 3 cjoinA).emits.head? =
      some (Target.toSender, OutEvent.existingUsers
        (c1roomA.users.map (fun kv => (kv.2.id, kv.2.name, kv.2.joinedAt)))
        c1roomA.getUsersStatus) :=
  ⟨rfl, (existing_users_snapshot c1server
    { currentRoomId := none, userName := none } "s9" 3 cjoinA c1roomA
    (by decide) rfl rfl rfl (by decide) (by decide)).1⟩

set_option maxRecDepth 10000 in
/-- C6 counterexample: a successful re-join. On a fresh server s1 joins
room a, then sends join-room for room a again; the second join succeeds
and its existing-users snapshot contains s1 — the joiner themself —
because s1 was already a participant immediately before the insertion. -/
theorem existing_users_includes_rejoiner :
    ((roomsGet c6step1.server.rooms "a").bind
        (fun r => alistGet r.users "s1")).isSome = true
    ∧ c6step2.emits.head? =
        some (Target.toSender, OutEvent.existingUsers
          [("s1", "Al", 0)] [("s1", false, false, false)]) := by
  constructor
  · decide
  · decide

/-- C9: on every successful join the user-started-screen-share events
sent during the handler are exactly one event per participant of the room
after the joiner's insertion whose screenShareOn flag is true, and when
the joiner joined with screenShareOn true this includes an event about
the joiner themself. -/
theorem join_screen_share_snapshot (server : ServerState) (conn : ConnState)
    (sid : String) (now : Nat) (p : JoinPayload) (room0 : OptimizedRoom)
    (hv : joinInvalid p = false)
    (hrl : (isRateLimited server.rateLimits now sid "join-room" 5 60000).1 = false)
    (hg : getOrCreateRoom server.rooms (jsTrim p.roomId) now = room0)
    (hcache : cacheOKb room0 = true)
    (hcap : room0.users.length < MAX_USERS_PER_ROOM) :
    screenShareEmits (joinRoomHandler server conn sid now p).emits =
      (((alistSet room0.users sid
          { id := sid, name := jsTrim p.name, cameraOn := p.cameraOn,
            audioOn := p.audioOn, screenShareOn := p.screenShareOn,
            joinedAt := now }).map (fun kv => kv.2)).filter
          (fun u => u.screenShareOn)).map
        (fun u => (Target.toSender,
          OutEvent.userStartedScreenShare u.id u.name))
    ∧ (p.screenShareOn = true →
        (Target.toSender,
          OutEvent.userStartedScreenShare sid (jsTrim p.name)) ∈
          (joinRoomHandler server conn sid now p).emits) := by
  have h := joinRoomHandler_success server conn sid now p room0 hv hrl hg
    hcache hcap
  constructor
  · rw [h.1]
    unfold screenShareEmits
    rw [List.filter_append, List.filter_append, List.filter_append]
    have h1 : List.filter (fun te =>
        match te.2 with
        | OutEvent.userStartedScreenShare _ _ => true
        | _ => false)
        [((Target.toSender : Target), OutEvent.existingUsers
          (room0.users.map (fun kv => (kv.2.id, kv.2.name, kv.2.joinedAt)))
          room0.getUsersStatus)] = [] := rfl
    have h2 : List.filter (fun te =>
        match te.2 with
        | OutEvent.userStartedScreenShare _ _ => true
        | _ => false)
        ((((alistSet room0.users sid
          { id := sid, name := jsTrim p.name, cameraOn := p.cameraOn,
            audioOn := p.audioOn, screenShareOn := p.screenShareOn,
            joinedAt := now }).map (fun kv => kv.2)).filter
          (fun u => u.screenShareOn)).map
          (fun u => (Target.toSender,
            OutEvent.userStartedScreenShare u.id u.name))) =
        (((alistSet room0.users sid
          { id := sid, name := jsTrim p.name, cameraOn := p.cameraOn,
            audioOn := p.audioOn, screenShareOn := p.screenShareOn,
            joinedAt := now }).map (fun kv => kv.2)).filter
          (fun u => u.screenShareOn)).map
          (fun u => (Target.toSender,
            OutEvent.userStartedScreenShare u.id u.name)) := by
      apply List.filter_eq_self.mpr
      intro te hte
      obtain ⟨u, hu, hteu⟩ := List.mem_map.mp hte
      rw [← hteu]
    have h3 : List.filter (fun te =>
        match te.2 with
        | OutEvent.userStartedScreenShare _ _ => true
        | _ => false)
        (if (room0.getChatHistory MAX_CHAT_HISTORY).length > 0 then
          [((Target.toSender : Target),
            OutEvent.chatHistoryEv (room0.getChatHistory MAX_CHAT_HISTORY))]
        else []) = [] := by
      split <;> rfl
    have h4 : List.filter (fun te =>
        match te.2 with
        | OutEvent.userStartedScreenShare _ _ => true
        | _ => false)
        [(Target.roomExceptSender p.roomId,
          OutEvent.userJoined sid (jsTrim p.name) p.cameraOn p.audioOn
            p.screenShareOn)] = [] := rfl
    rw [h1, h2, h3, h4]
    simp
  · intro hs
    rw [h.1]
    have hmem : ({ id := sid, name := jsTrim p.name,
                   cameraOn := p.cameraOn, audioOn := p.audioOn,
                   screenShareOn := p.screenShareOn,
                   joinedAt := now } : UserRec) ∈
        (alistSet room0.users sid
          { id := sid, name := jsTrim p.name, cameraOn := p.cameraOn,
            audioOn := p.audioOn, screenShareOn := p.screenShareOn,
            joinedAt := now }).map (fun kv => kv.2) :=
      mem_map_alistSet room0.users sid _
    have hfil : ({ id := sid, name := jsTrim p.name,
                   cameraOn := p.cameraOn, audioOn := p.audioOn,
                   screenShareOn := p.screenShareOn,
                   joinedAt := now } : UserRec) ∈
        ((alistSet room0.users sid
          { id := sid, name := jsTrim p.name, cameraOn := p.cameraOn,
            audioOn := p.audioOn, screenShareOn := p.screenShareOn,
            joinedAt := now }).map (fun kv => kv.2)).filter
          (fun u => u.screenShareOn) :=
      List.mem_filter.mpr ⟨hmem, by simp [hs]⟩
    have himg : (Target.toSender,
        OutEvent.userStartedScreenShare sid (jsTrim p.name)) ∈
        (((alistSet room0.users sid
          { id := sid, name := jsTrim p.name, cameraOn := p.cameraOn,
            audioOn := p.audioOn, screenShareOn := p.screenShareOn,
            joinedAt := now }).map (fun kv => kv.2)).filter
          (fun u => u.screenShareOn)).map
          (fun u => (Target.toSender,
            OutEvent.userStartedScreenShare u.id u.name)) :=
      List.mem_map.mpr ⟨_, hfil, rfl⟩
    simp only [List.mem_append]
    exact Or.inl (Or.inl (Or.inr himg))

/-- Witness for the C9 theorem: s1 joins the one-participant room a with
screenShareOn true and receives a user-started-screen-share event about
themself. -/
theorem join_screen_share_snapshot_witness :
    cacheOKb c1roomA = true
    ∧ (Target.toSender, OutEvent.userStartedScreenShare "s9" "Al") ∈
        (joinRoomHandler c1server
          { currentRoomId := none, userName := none } "s9" 3
          { roomId := "a", name := "Al", cameraOn := false,
            audioOn := false, screenShareOn := true }).emits :=
  ⟨rfl, (join_screen_share_snapshot c1server
    { currentRoomId := none, userName := none } "s9" 3
    { roomId := "a", name := "Al", cameraOn := false, audioOn := false,
      screenShareOn := true } c1roomA
    (by decide) rfl rfl rfl (by decide)).2 rfl⟩

/-- C3 (amended): every failed join emits an error, and for malformed
input and rate-limited attempts the whole session state is untouched; but
a full-room failure happens after currentRoomId and userName were already
assigned and after socket.join, so the session's room id is then the
attempted room rather than staying null. -/
theorem failed_join_session_state (server : ServerState) (conn : ConnState)
    (sid : String) (now : Nat) (p : JoinPayload) :
    (joinInvalid p = true →
      joinRoomHandler server conn sid now p =
        { server := server, conn := conn,
          emits := [(Target.toSender,
            OutEvent.errorMsg "Invalid room ID or name")],
          sioJoined := [] })
    ∧ (joinInvalid p = false →
        (isRateLimited server.rateLimits now sid "join-room" 5 60000).1 = true →
        joinRoomHandler server conn sid now p =
          { server := server, conn := conn,
            emits := [(Target.toSender,
              OutEvent.errorMsg "Too many join attempts. Please wait.")],
            sioJoined := [] })
    ∧ (∀ room0 : OptimizedRoom, joinInvalid p = false →
        (isRateLimited server.rateLimits now sid "join-room" 5 60000).1 = false →
        getOrCreateRoom server.rooms (jsTrim p.roomId) now = room0 →
        room0.users.length ≥ MAX_USERS_PER_ROOM →
        (joinRoomHandler server conn sid now p).emits =
          [(Target.toSender,
            OutEvent.errorMsg "Room is full (max 150 users)")]
        ∧ (joinRoomHandler server conn sid now p).conn =
            { currentRoomId := some (jsTrim p.roomId),
              userName := some (jsTrim p.name) }
        ∧ (joinRoomHandler server conn sid now p).sioJoined = [p.roomId]) := by
  refine ⟨?_, ?_, ?_⟩
  · intro hv
    unfold joinRoomHandler
    rw [if_pos hv]
  · intro hv hrl
    unfold joinRoomHandler
    rw [if_neg (by simp [hv]), if_pos hrl]
  · intro room0 hv hrl hg hfull
    have hfields := getUsersArray_snd_fields room0 now
    have haddErr : (room0.getUsersArray now).2.addUser now sid
        { name := jsTrim p.name, cameraOn := p.cameraOn,
          audioOn := p.audioOn, screenShareOn := p.screenShareOn } =
        Except.error "Room is full" := by
      unfold OptimizedRoom.addUser
      rw [if_pos (by rw [hfields.1]; omega)]
    have hmain : joinRoomHandler server conn sid now p =
        { server :=
            { server with
              rooms := roomsSet server.rooms (jsTrim p.roomId)
                ((room0.getUsersArray now).2),
              rateLimits :=
                (isRateLimited server.rateLimits now sid "join-room" 5 60000).2 },
          conn := { currentRoomId := some (jsTrim p.roomId),
                    userName := some (jsTrim p.name) },
          emits := [(Target.toSender,
            OutEvent.errorMsg "Room is full (max 150 users)")],
          sioJoined := [p.roomId] } := by
      unfold joinRoomHandler
      rw [if_neg (by simp [hv]), if_neg (by simp [hrl])]
      simp [hg, haddErr]
    rw [hmain]
    exact ⟨rfl, rfl, rfl⟩

/-- Witness for the C3 theorem: a join with an empty room id is refused
with an error and no state change. -/
theorem failed_join_session_state_witness :
    joinInvalid cjoinBad = true
    ∧ joinRoomHandler { rooms := [], rateLimits := [] }
        { currentRoomId := none, userName := none } "s1" 0 cjoinBad =
      { server := { rooms := [], rateLimits := [] },
        conn := { currentRoomId := none, userName := none },
        emits := [(Target.toSender,
          OutEvent.errorMsg "Invalid room ID or name")],
        sioJoined := [] } :=
  ⟨rfl, (failed_join_session_state { rooms := [], rateLimits := [] }
    { currentRoomId := none, userName := none } "s1" 0 cjoinBad).1 rfl⟩

set_option maxRecDepth 400000 in
/-- C3 counterexample: a join attempt on a full room by an unjoined
connection fails with the room-full error, yet afterwards the session's
current room id is the attempted room rather than null, even though the
connection was never inserted into the room. -/
theorem full_room_join_sets_room_id :
    c3res.emits =
      [(Target.toSender, OutEvent.errorMsg "Room is full (max 150 users)")]
    ∧ c3res.conn.currentRoomId = some "a"
    ∧ ((roomsGet c3res.server.rooms "a").bind
        (fun r => alistGet r.users "s9")) = none := by
  refine ⟨by decide, by decide, by decide⟩

/-- C8 (amended): a join mutates no room other than the target room (in
particular the session is not removed from a previously joined room), and
a disconnect mutates no room other than the session's current room; with
no current room a disconnect changes nothing. A connection that joins a
second room therefore stays in the participant map of the first. -/
theorem membership_updates_localized (server : ServerState)
    (conn : ConnState) (sid : String) (now : Nat) (p : JoinPayload)
    (k : String) :
    (k ≠ jsTrim p.roomId →
      roomsGet (joinRoomHandler server conn sid now p).server.rooms k =
        roomsGet server.rooms k)
    ∧ (∀ rid, conn.currentRoomId = some rid → k ≠ rid →
        roomsGet (disconnectHandler server conn sid now).1.rooms k =
          roomsGet server.rooms k)
    ∧ (conn.currentRoomId = none →
        (disconnectHandler server conn sid now).1 = server) := by
  refine ⟨?_, ?_, ?_⟩
  · intro hk
    unfold joinRoomHandler
    by_cases hv : joinInvalid p = true
    · rw [if_pos hv]
    · rw [if_neg (by simp [hv])]
      by_cases hrl :
          (isRateLimited server.rateLimits now sid "join-room" 5 60000).1 = true
      · rw [if_pos hrl]
      · rw [if_neg (by simp [hrl])]
        rcases haddr : ((getOrCreateRoom server.rooms (jsTrim p.roomId)
            now).getUsersArray now).2.addUser now sid
            { name := jsTrim p.name, cameraOn := p.cameraOn,
              audioOn := p.audioOn, screenShareOn := p.screenShareOn }
          with e | r2
        · simp only [haddr]
          simp only [roomsGet, roomsSet]
          exact alistGet_alistSet_ne server.rooms (jsTrim p.roomId) k _ hk
        · simp only [haddr]
          simp only [roomsGet, roomsSet]
          exact alistGet_alistSet_ne server.rooms (jsTrim p.roomId) k _ hk
  · intro rid hrid hk
    unfold disconnectHandler
    rw [hrid]
    rcases hr : roomsGet server.rooms rid with _ | room
    · simp [hr]
    · simp only [hr]
      by_cases hrem : (room.removeUser now sid).1 = true
      · simp only [hrem, if_true]
        simp only [roomsGet, roomsSet]
        exact alistGet_alistSet_ne server.rooms rid k _ hk
      · simp only [Bool.not_eq_true] at hrem
        simp [hrem]
  · intro hnone
    unfold disconnectHandler
    rw [hnone]

/-- Witness for the C8 theorem: the join of s1 into room a leaves the
unrelated key zzz unchanged, and a disconnect with no current room is a
no-op. -/
theorem membership_updates_localized_witness :
    ("zzz" ≠ jsTrim cjoinA.roomId)
    ∧ roomsGet (joinRoomHandler { rooms := [], rateLimits := [] }
        { currentRoomId := none, userName := none } "s1" 0
        cjoinA).server.rooms "zzz" =
      roomsGet ([] : List (String × OptimizedRoom)) "zzz"
    ∧ (disconnectHandler { rooms := [], rateLimits := [] }
        { currentRoomId := none, userName := none } "s1" 5).1 =
      { rooms := [], rateLimits := [] } :=
  ⟨by decide,
   (membership_updates_localized { rooms := [], rateLimits := [] }
     { currentRoomId := none, userName := none } "s1" 0 cjoinA "zzz").1
     (by decide),
   (membership_updates_localized { rooms := [], rateLimits := [] }
     { currentRoomId := none, userName := none } "s1" 5 cjoinA "zzz").2.2
     rfl⟩

set_option maxRecDepth 10000 in
/-- C8 counterexample: s1 joins room a and then room b without
disconnecting; afterwards s1 is simultaneously in the participant maps of
both rooms, so a connection can be a participant of two rooms at once. -/
theorem connection_in_two_rooms :
    ("a" : String) ≠ "b"
    ∧ ((roomsGet c8step2.server.rooms "a").bind
        (fun r => alistGet r.users "s1")).isSome = true
    ∧ ((roomsGet c8step2.server.rooms "b").bind
        (fun r => alistGet r.users "s1")).isSome = true := by
  refine ⟨by decide, by decide, by decide⟩

/-- C1 (amended): the offer, answer and ice-candidate handlers never emit
anything to the sender (in particular no error), and they validate only
the sender's membership of its current room: when the sender passes the
checks, the payload is forwarded to the socket.io room named by the
payload target even when that target is not a participant of the sender's
room, and a connected target socket distinct from the sender is among the
sockets such an emit reaches. -/
theorem signaling_relay_target_unchecked (server : ServerState)
    (conn : ConnState) (sid : String) (now : Nat) :
    (∀ (p : OfferPayload) (t : Target) (e : OutEvent),
      (t, e) ∈ offerHandler server conn sid p →
      t = Target.roomExceptSender p.toId)
    ∧ (∀ (p : AnswerPayload) (t : Target) (e : OutEvent),
        (t, e) ∈ (answerHandler server conn sid now p).2 →
        t = Target.roomExceptSender p.toId)
    ∧ (∀ (p : IcePayload) (t : Target) (e : OutEvent),
        (t, e) ∈ (iceCandidateHandler server conn sid now p).2 →
        t = Target.roomExceptSender p.toId)
    ∧ (∀ (p : OfferPayload) (rid : String) (room : OptimizedRoom) (u : UserRec),
        conn.currentRoomId = some rid →
        roomsGet server.rooms rid = some room →
        alistGet room.users sid = some u →
        p.toId ≠ "" →
        alistGet room.users p.toId = none →
        offerHandler server conn sid p =
          [(Target.roomExceptSender p.toId,
            OutEvent.offerEv p.sdp sid u.name u.cameraOn u.audioOn
              u.screenShareOn)])
    ∧ (∀ (p : AnswerPayload) (rid : String) (room : OptimizedRoom),
        conn.currentRoomId = some rid →
        roomsGet server.rooms rid = some room →
        alistHas room.users sid = true →
        p.toId ≠ "" →
        (isRateLimited server.rateLimits now sid "signaling" 50 60000).1 = false →
        alistGet room.users p.toId = none →
        (answerHandler server conn sid now p).2 =
          [(Target.roomExceptSender p.toId,
            OutEvent.answerEv p.sdp p.toId sid)])
    ∧ (∀ (p : IcePayload) (rid : String) (room : OptimizedRoom),
        conn.currentRoomId = some rid →
        roomsGet server.rooms rid = some room →
        alistHas room.users sid = true →
        p.toId ≠ "" →
        (isRateLimited server.rateLimits now sid "signaling" 100 60000).1 = false →
        alistGet room.users p.toId = none →
        (iceCandidateHandler server conn sid now p).2 =
          [(Target.roomExceptSender p.toId,
            OutEvent.iceCandidateEv p.candidate p.toId sid)])
    ∧ (∀ (connected : List String) (mem : List (String × String))
        (sender target : String),
        target ∈ connected → target ≠ sender →
        target ∈ deliverTo connected mem sender
          (Target.roomExceptSender target)) := by
  refine ⟨?_, ?_, ?_, ?_, ?_, ?_, ?_⟩
  · intro p t e hmem
    unfold offerHandler at hmem
    rcases hu : (conn.currentRoomId.bind
        (fun rid => roomsGet server.rooms rid)).bind
        (fun r => alistGet r.users sid) with _ | u
    · rw [hu] at hmem
      simp at hmem
    · rw [hu] at hmem
      by_cases hto : p.toId = ""
      · simp [hto] at hmem
      · simp [hto] at hmem
        exact hmem.1
  · intro p t e hmem
    unfold answerHandler at hmem
    rcases hb : conn.currentRoomId.bind (fun rid => roomsGet server.rooms rid)
      with _ | room
    · rw [hb] at hmem
      by_cases h1 : p.toId = "" ∨ conn.currentRoomId = none
      · simp [h1] at hmem
      · by_cases hrl : (isRateLimited server.rateLimits now sid
            "signaling" 50 60000).1 = true
        · simp [h1, hrl] at hmem
        · simp [h1, hrl] at hmem
    · rw [hb] at hmem
      by_cases h1 : p.toId = "" ∨ conn.currentRoomId = none
      · simp [h1] at hmem
      · by_cases hrl : (isRateLimited server.rateLimits now sid
            "signaling" 50 60000).1 = true
        · simp [h1, hrl] at hmem
        · by_cases hh : alistHas room.users sid = true
          · simp [h1, hrl, hh] at hmem
            exact hmem.1
          · simp [h1, hrl, hh] at hmem
  · intro p t e hmem
    unfold iceCandidateHandler at hmem
    rcases hb : conn.currentRoomId.bind (fun rid => roomsGet server.rooms rid)
      with _ | room
    · rw [hb] at hmem
      by_cases h1 : p.toId = "" ∨ conn.currentRoomId = none
      · simp [h1] at hmem
      · by_cases hrl : (isRateLimited server.rateLimits now sid
            "signaling" 100 60000).1 = true
        · simp [h1, hrl] at hmem
        · simp [h1, hrl] at hmem
    · rw [hb] at hmem
      by_cases h1 : p.toId = "" ∨ conn.currentRoomId = none
      · simp [h1] at hmem
      · by_cases hrl : (isRateLimited server.rateLimits now sid
            "signaling" 100 60000).1 = true
        · simp [h1, hrl] at hmem
        · by_cases hh : alistHas room.users sid = true
          · simp [h1, hrl, hh] at hmem
            exact hmem.1
          · simp [h1, hrl, hh] at hmem
  · intro p rid room u hrid hroom hu hto htarget
    unfold offerHandler
    rw [hrid]
    simp [hroom, hu, hto]
  · intro p rid room hrid hroom hh hto hrl htarget
    unfold answerHandler
    rw [if_neg (by simp [hto, hrid])]
    rw [if_neg (by simp [hrl])]
    rw [hrid]
    simp [hroom, hh]
  · intro p rid room hrid hroom hh hto hrl htarget
    unfold iceCandidateHandler
    rw [if_neg (by simp [hto, hrid])]
    rw [if_neg (by simp [hrl])]
    rw [hrid]
    simp [hroom, hh]
  · intro connected mem sender target htc hts
    unfold deliverTo sioMembers
    refine List.mem_filter.mpr ⟨List.mem_filter.mpr ⟨htc, by simp⟩, by simp [hts]⟩

/-- Witness for the C1 theorem: on the concrete two-room world, s1 in
room a addresses an offer and an ice candidate to s2, which is not a
participant of room a; both are still emitted to the socket.io room s2,
and s2 is among the sockets such an emit reaches. -/
theorem signaling_relay_target_unchecked_witness :
    alistGet c1roomA.users "s2" = none
    ∧ offerHandler c1server c1conn "s1" { sdp := "sdp1", toId := "s2" } =
        [(Target.roomExceptSender "s2",
          OutEvent.offerEv "sdp1" "s1" "Alice" true true false)]
    ∧ (iceCandidateHandler c1server c1conn "s1" 0
        { candidate := "cand1", toId := "s2" }).2 =
        [(Target.roomExceptSender "s2",
          OutEvent.iceCandidateEv "cand1" "s2" "s1")]
    ∧ "s2" ∈ deliverTo c1connected c1memberships "s1"
        (Target.roomExceptSender "s2") :=
  ⟨rfl,
   (signaling_relay_target_unchecked c1server c1conn "s1" 0).2.2.2.1
     { sdp := "sdp1", toId := "s2" } "a" c1roomA
     { id := "s1", name := "Alice", cameraOn := true, audioOn := true,
       screenShareOn := false, joinedAt := 0 }
     rfl rfl rfl (by decide) rfl,
   (signaling_relay_target_unchecked c1server c1conn "s1" 0).2.2.2.2.2.1
     { candidate := "cand1", toId := "s2" } "a" c1roomA
     rfl rfl rfl (by decide) rfl rfl,
   (signaling_relay_target_unchecked c1server c1conn "s1" 0).2.2.2.2.2.2
     c1connected c1memberships "s1" "s2" (by decide) (by decide)⟩

/-- C1 counterexample: in the two-room world the offer from s1 (room a)
to s2 (room b) is delivered to s2 and produces no error, refuting that a
message addressed outside the sender's room reaches nobody. -/
theorem offer_crosses_room_boundary :
    c1emits = [(Target.roomExceptSender "s2",
      OutEvent.offerEv "sdp1" "s1" "Alice" true true false)]
    ∧ deliveredSockets c1connected c1memberships "s1" c1emits = ["s2"]
    ∧ alistGet c1roomA.users "s2" = none := by
  refine ⟨by decide, by decide, by decide⟩

/-- C10: updateUserStatus merges a supplied name into the stored record
with no validation of its length or content, so a media-status-change
event carrying a name renames the participant; the chat-message handler
then accepts a message only when the claimed name, trimmed, equals the
currently stored name (a mismatch drops the message silently), not the
name given at join time. -/
theorem rename_via_status_and_chat_check (server : ServerState)
    (conn : ConnState) (sid : String) (now : Nat) :
    (∀ (r : OptimizedRoom) (u : UserRec) (st : StatusUpdate) (n : String),
      alistGet r.users sid = some u → st.name = some n →
      (r.updateUserStatus now sid st).1 =
        some { u with cameraOn := st.cameraOn.getD u.cameraOn,
                      audioOn := st.audioOn.getD u.audioOn,
                      screenShareOn := st.screenShareOn.getD u.screenShareOn,
                      name := n }
      ∧ alistGet ((r.updateUserStatus now sid st).2).users sid =
          some { u with cameraOn := st.cameraOn.getD u.cameraOn,
                        audioOn := st.audioOn.getD u.audioOn,
                        screenShareOn := st.screenShareOn.getD u.screenShareOn,
                        name := n })
    ∧ (∀ (rid : String) (room : OptimizedRoom) (u : UserRec)
        (st : StatusUpdate) (n : String),
        conn.currentRoomId = some rid →
        roomsGet server.rooms rid = some room →
        alistGet room.users sid = some u →
        st.name = some n →
        storedName (mediaStatusChangeHandler server conn sid now st).1
          rid sid = some n)
    ∧ (∀ (p : ChatPayload) (room : OptimizedRoom) (u : UserRec),
        roomsGet server.rooms p.roomId = some room →
        alistGet room.users sid = some u →
        (u.name ≠ jsTrim p.name →
          (chatMessageHandler server conn sid now p).2 = [])
        ∧ (u.name = jsTrim p.name → jsTrim p.message ≠ "" →
            jsTrim p.name ≠ "" → p.message.length ≤ 500 →
            (isRateLimited server.rateLimits now sid "chat" 30 60000).1 = false →
            (chatMessageHandler server conn sid now p).2 =
              [(Target.roomAll p.roomId,
                OutEvent.chatMessageEv u.name (jsTrim p.message) now)])) := by
  have hupd : ∀ (r : OptimizedRoom) (u : UserRec) (st : StatusUpdate)
      (n : String),
      alistGet r.users sid = some u → st.name = some n →
      r.updateUserStatus now sid st =
        (some { u with cameraOn := st.cameraOn.getD u.cameraOn,
                       audioOn := st.audioOn.getD u.audioOn,
                       screenShareOn := st.screenShareOn.getD u.screenShareOn,
                       name := n },
         OptimizedRoom.invalidateCache
           { r with
             users := alistSet r.users sid
               { u with cameraOn := st.cameraOn.getD u.cameraOn,
                        audioOn := st.audioOn.getD u.audioOn,
                        screenShareOn := st.screenShareOn.getD u.screenShareOn,
                        name := n },
             lastActivity := now }) := by
    intro r u st n hu hn
    unfold OptimizedRoom.updateUserStatus
    rw [hu, hn]
    rfl
  refine ⟨?_, ?_, ?_⟩
  · intro r u st n hu hn
    rw [hupd r u st n hu hn]
    constructor
    · rfl
    · simp only [OptimizedRoom.invalidateCache]
      exact alistGet_alistSet_self r.users sid _
  · intro rid room u st n hrid hroom hu hn
    unfold mediaStatusChangeHandler
    rw [hrid]
    simp only [hroom]
    rw [hupd room u st n hu hn]
    simp only [storedName, roomsGet, roomsSet]
    rw [alistGet_alistSet_self]
    simp [OptimizedRoom.invalidateCache, alistGet_alistSet_self]
  · intro p room u hroom hu
    constructor
    · intro hne
      unfold chatMessageHandler
      simp only [hroom, hu]
      rw [if_pos (Or.inr (Or.inr hne))]
    · intro heq hm hn hlen hrl
      unfold chatMessageHandler
      simp only [hroom, hu]
      rw [if_neg (by simp [hm, hn, heq])]
      rw [if_neg (by omega)]
      simp [hrl]

/-- Witness for the C10 theorem: a media-status-change carrying only the
name NewName renames x in room r, so the stored name afterwards is
NewName rather than the join-time name Old. -/
theorem rename_via_status_and_chat_check_witness :
    c10status.name = some "NewName"
    ∧ storedName (mediaStatusChangeHandler c10server c10conn "x" 5
        c10status).1 "r" "x" = some "NewName" :=
  ⟨rfl,
   (rename_via_status_and_chat_check c10server c10conn "x" 5).2.1
     "r" c10room
     { id := "x", name := "Old", cameraOn := false, audioOn := false,
       screenShareOn := false, joinedAt := 0 }
     c10status "NewName" rfl rfl rfl rfl⟩
